import Mathlib

/-!
Verification model of the artifact-pipeline orchestration core.

The definitions below are a shallow embedding of the Python sources:
  * `artifact_pipeline/utils.py` (`BuildResult`, `os_auth_env`, `swift_publish`)
  * `artifact_pipeline/activities/backport_package.py` and
    `artifact_pipeline/activities/archive_backport.py` (step command construction)
  * `artifact_pipeline/activities/backport_o_matic.py` (`swift_publish` activity)
  * `artifact_pipeline/workflows/backport_package.py` (`BackportPackage.run`)
  * `artifact_pipeline/workflows/backport_o_matic.py` (`BackportOMatic.run`)

External effects (subprocess execution, filesystem globbing, the Launchpad
query and the object store) are passed in as explicit oracle parameters, and
filesystem writes are returned as explicit event lists.  A Python exception
(`IndexError`, `RuntimeError`) is modelled by `Option.none`.
-/

/-- Python truthiness of an `Optional[int]` return code: `None` and `0` are
falsy, any other integer is truthy. -/
def pyTruthy : Option Int → Bool
  | none => false
  | some n => n != 0

/-- Rendering of an `Optional[int]` inside a Python f-string: `None` prints as
the literal `None`, integers print in decimal. -/
def pyRepr : Option Int → String
  | none => "None"
  | some n => toString n

/-- Python whitespace characters stripped by `str.strip` / `str.rstrip`. -/
def isPySpace (c : Char) : Bool :=
  c = ' ' || c = '\t' || c = '\n' || c = '\x0d' || c = '\x0b' || c = '\x0c'

/-- `str.rstrip()` on a character list. -/
def pyRstrip (l : List Char) : List Char :=
  (l.reverse.dropWhile isPySpace).reverse

/-- `str.strip()` on a character list. -/
def pyStrip (l : List Char) : List Char :=
  pyRstrip (l.dropWhile isPySpace)

/-- `str.split(sep)` for a one-character separator, on character lists.
Mirrors Python: `"".split("=") == [""]`, `"a=b".split("=") == ["a","b"]`. -/
def splitOnChar (c : Char) : List Char → List (List Char)
  | [] => [[]]
  | x :: xs =>
    if x = c then [] :: splitOnChar c xs
    else
      match splitOnChar c xs with
      | [] => [[x]]
      | h :: t => (x :: h) :: t

/-- First occurrence of `sep` in `s`: returns the part before the occurrence
and the part after it, or `none` when `sep` does not occur in `s`. -/
def splitFirst (sep : List Char) : List Char → Option (List Char × List Char)
  | [] => if sep = [] then some ([], []) else none
  | c :: cs =>
    if sep <+: (c :: cs) then some ([], (c :: cs).drop sep.length)
    else
      match splitFirst sep cs with
      | none => none
      | some (a, b) => some (c :: a, b)

/-- The second piece of a Python `split`: the text that follows one
occurrence of `sep`, truncated at the next occurrence of `sep` (or the whole
remainder when `sep` does not occur again). -/
def pySecondPiece (sep rest : List Char) : List Char :=
  match splitFirst sep rest with
  | none => rest
  | some q => q.1

/-- Element `[1]` of Python's `s.split(sep)` for a multi-character separator:
the text between the first and the second occurrence of `sep` (up to the end
of `s` when `sep` occurs only once); `none` models the `IndexError` raised
when `sep` does not occur in `s` at all. -/
def pySplitIndex1 (s sep : String) : Option String :=
  match splitFirst sep.data s.data with
  | none => none
  | some p => some (String.mk (pySecondPiece sep.data p.2))

/-- Bounded check that `sub` occurs somewhere in `s` (as a contiguous run). -/
def occursB (sub s : List Char) : Bool :=
  (List.range (s.length + 1)).any (fun k => decide (sub <+: s.drop k))

/-- Python `s.replace(sep, repl)`: replace every (left-to-right,
non-overlapping) occurrence of `sep` by `repl`.  For the empty separator the
sources never call it; we make it the identity. -/
def pyReplace (sep repl : List Char) : List Char → List Char
  | [] => []
  | c :: cs =>
    match sep with
    | [] => c :: cs
    | a :: as =>
      if (a :: as) <+: (c :: cs) then repl ++ pyReplace (a :: as) repl (cs.drop as.length)
      else c :: pyReplace (a :: as) repl cs
termination_by l => l.length
decreasing_by
  · simp only [List.length_drop, List.length_cons]
    omega
  · simp only [List.length_cons]
    omega

/-- Substring check on `String`s, via `occursB`. -/
def strContains (s sub : String) : Bool :=
  occursB sub.data s.data

/-- `os.path.join(a, b)` for the POSIX paths the pipeline builds: `b` when it
is absolute, otherwise `a` and `b` joined with exactly one `/` between them. -/
def joinPath (a b : String) : String :=
  if b.data.take 1 = ['/'] then b
  else if a = "" then b
  else if a.data.getLast? = some '/' then a ++ b
  else a ++ "/" ++ b

/-- Python `dict`/`OrderedDict` assignment `m[k] = v`: overwrite in place when
the key exists, append otherwise (insertion order preserved). -/
def pyDictSet {β : Type} (m : List (String × β)) (k : String) (v : β) : List (String × β) :=
  if k ∈ m.map Prod.fst then m.map (fun p => if p.1 = k then (k, v) else p)
  else m ++ [(k, v)]

/-- `BuildResult` from `artifact_pipeline/utils.py`: the per-package build
record.  `output` is the accumulated transcript, `logfile` the derived log
file name. -/
structure BuildResult where
  package : String
  version : String
  status : String
  output : String
  logfile : String
deriving DecidableEq, Repr

/-- `BuildResult.__init__(package)` with the default `version=""`,
`status="current"`. -/
def initialBuildResult (package : String) : BuildResult :=
  ⟨package, "", "current", "", ""⟩

/-- The transcript block formatted by `BuildResult.update_build_result`:
`f"+ {' '.join(cmd)}\n{output}+ return code: {retcode}\n"`. -/
def fmtBlock (cmd : List String) (retcode : Option Int) (output : String) : String :=
  "+ " ++ String.intercalate " " cmd ++ "\n" ++ output ++ "+ return code: "
    ++ pyRepr retcode ++ "\n"

/-- The version-discovery prelude of `update_build_result` (utils.py lines
55-60): when `version` is unset and the glob `{work_dir}/{package}*` matched,
take the first match and return the text after `{work_dir}/{package}-` in it
(`split(...)[1]`); `none` models the `IndexError` when that separator does
not occur in the matched path.  `globResult` is the oracle for the `glob`
call. -/
def discoverVersion (b : BuildResult) (work_dir : String) (globResult : List String) :
    Option String :=
  if b.version = "" then
    match globResult with
    | [] => some b.version
    | d :: _ => pySplitIndex1 d (work_dir ++ "/" ++ b.package ++ "-")
  else some b.version

/-- `BuildResult.update_build_result(cmd, retcode, output, work_dir)` from
utils.py lines 45-71, with the `glob` result passed as an oracle.  `none`
models the `IndexError` that version discovery can raise. -/
def update_build_result (b : BuildResult) (cmd : List String) (retcode : Option Int)
    (output : String) (work_dir : String) (globResult : List String) : Option BuildResult :=
  match discoverVersion b work_dir globResult with
  | none => none
  | some version =>
    some { package := b.package
           version := version
           status := if pyTruthy retcode then "failed" else b.status
           output := if b.output = "" then fmtBlock cmd retcode output
                     else b.output ++ "\n" ++ fmtBlock cmd retcode output
           logfile := b.package ++ "-" ++ version ++ ".build" }

/-- `BuildResult.write_build_result(log_dir)` from utils.py lines 73-82: open
`{log_dir}/{logfile}` for writing, write the accumulated output, clear it in
memory and return the path.  The first component is the list of filesystem
write events `(path, content)` the call performs (opening in mode `"w"`
creates the file even when the content is empty). -/
def write_build_result (b : BuildResult) (log_dir : String) :
    List (String × String) × String × BuildResult :=
  let path := joinPath log_dir b.logfile
  ([(path, b.output)], path, { b with output := "" })

/-- The result of one activity invocation as the workflows receive it:
`(cmd, returncode, output)`. -/
structure StepResult where
  cmd : List String
  retcode : Option Int
  output : String
deriving DecidableEq, Repr

/-- The four pipeline steps of the single-package state machine. -/
inductive Step where
  | prepare
  | build
  | sign
  | upload
deriving DecidableEq, Repr

/-- The argv built by `prepare_package` in
`activities/backport_package.py` lines 47-59: the flags, then `--proposed`
when requested, then the package name appended last. -/
def backport_package_prepare_cmd (package_name os_series suffix work_dir : String)
    (check_proposed : Bool) : List String :=
  (["cloud-archive-backport", "--suffix", suffix, "--yes", "--release", os_series,
    "--outdir", work_dir]
    ++ (if check_proposed then ["--proposed"] else [])) ++ [package_name]

/-- The argv built by `prepare_package` in
`activities/archive_backport.py` lines 54-67: the package name is part of the
initial list (line 63) and is appended a second time after the optional
`--proposed` flag (line 67). -/
def archive_backport_prepare_cmd (package_name os_series suffix work_dir : String)
    (check_proposed : Bool) : List String :=
  (["cloud-archive-backport", "--suffix", suffix, "--yes", "--release", os_series,
    "--outdir", work_dir, package_name]
    ++ (if check_proposed then ["--proposed"] else [])) ++ [package_name]

/-- `build_package` from `activities/backport_package.py` lines 71-101:
when the `.dsc` glob is empty, return a skip outcome (exit 0 and an
explanatory message) without invoking the builder; otherwise run
`sbuild-<series>` on the first glob match.  `dscGlob` is the oracle for the
glob, `exec` for the subprocess. -/
def backport_package_build (package_name os_series work_dir : String)
    (dscGlob : List String) (exec : List String → Option Int × String) : StepResult :=
  let cmd := ["sbuild-" ++ os_series, "--nolog", "--arch-all"]
  let dsc_path := joinPath (joinPath work_dir (package_name ++ "*")) (package_name ++ "_*.dsc")
  match dscGlob with
  | [] => ⟨cmd, some 0, dsc_path ++ " does not exist. Skipping sbuild." ++ "\n"⟩
  | d :: _ =>
    let r := exec (cmd ++ [d])
    ⟨cmd ++ [d], r.1, r.2⟩

/-- `build_package` from `activities/archive_backport.py` lines 77-99: the
first glob match is indexed unconditionally (`dsc_file[0]`, line 89), so an
empty glob raises `IndexError`, modelled as `none`. -/
def archive_backport_build (package_name os_series work_dir : String)
    (dscGlob : List String) (exec : List String → Option Int × String) : Option StepResult :=
  match dscGlob with
  | [] => none
  | d :: _ =>
    let cmd := ["sbuild-" ++ os_series, "--nolog", "--arch-all", d]
    let r := exec cmd
    some ⟨cmd, r.1, r.2⟩

/-- The `swift upload` argv built by `swift_publish`
(`activities/backport_o_matic.py` lines 181-205): the `--header` pair is
present exactly when a header string was supplied. -/
def swift_upload_cmd (path header : String) : List String :=
  if header ≠ "" then
    ["swift", "upload", "reports", "--object-name", "backport-o-matic",
     "--header", header, path]
  else
    ["swift", "upload", "reports", "--object-name", "backport-o-matic", path]

/-- The ACL-setting argv of `swift_publish` (line 206). -/
def swift_post_cmd : List String :=
  ["swift", "post", "--read-acl", ".r:*,.rlistings", "reports"]

/-- The command loop of `swift_publish` (lines 207-215): run the commands in
order; a truthy return code stops the loop immediately and is returned.
Returns the executed commands and the final return code. -/
def runCmds (exec : List String → Option Int × String) :
    List (List String) → Option Int → List (List String) × Option Int
  | [], rc => ([], rc)
  | c :: cs, _ =>
    let r := exec c
    if pyTruthy r.1 then ([c], r.1)
    else
      let rest := runCmds exec cs r.1
      (c :: rest.1, rest.2)

/-- The `swift_publish` activity (`activities/backport_o_matic.py` lines
167-215): upload the path, then set the read ACL, aborting on the first
failing command. -/
def swift_publish (path header : String) (exec : List String → Option Int × String) :
    List (List String) × Option Int :=
  runCmds exec [swift_upload_cmd path header, swift_post_cmd] (some 0)

/-- The characters of the token removed by `line.replace("export ", "")` in
`os_auth_env`. -/
def exportSepChars : List Char :=
  ("export ").data

/-- `os_auth_env` from utils.py lines 280-294, over the list of lines of the
credentials file.  Every line is processed: the substring `export ` is
removed, double quotes are removed, trailing whitespace is stripped, and the
line is split on `=`; `split[0]` is the key and `split[1]` the value.  A
processed line with no `=` raises `IndexError` (`none`). -/
def os_auth_env (lines : List String) : Option (List (String × String)) :=
  lines.foldlM (fun env line =>
    let processed := pyRstrip (pyReplace ['"'] [] (pyReplace exportSepChars [] line.data))
    match splitOnChar '=' processed with
    | v0 :: v1 :: _ => some (pyDictSet env (String.mk v0) (String.mk v1))
    | _ => none) []

/-- `[p for p in output.strip().split(" ") if p]` from
`workflows/backport_o_matic.py` line 98. -/
def parsePackages (output : String) : List String :=
  ((splitOnChar ' ' (pyStrip output.data)).map String.mk).filter (fun p => p != "")

/-- One iteration of the single-package pipeline driver
(`BackportPackage.run`, `workflows/backport_package.py` lines 62-93, and the
identical inner loop of `BackportOMatic.run`): a step runs only when the
current return code is falsy; its outcome is merged into the build record.
The accumulator carries the list of steps invoked so far, the current return
code and the record. -/
def runStep (work_dir : String) (res : Step → StepResult) (globs : Step → List String)
    (acc : List Step × Option Int × BuildResult) (s : Step) :
    Option (List Step × Option Int × BuildResult) :=
  if pyTruthy acc.2.1 then some acc
  else
    match update_build_result acc.2.2 (res s).cmd (res s).retcode (res s).output work_dir
        (globs s) with
    | none => none
    | some b => some (acc.1 ++ [s], (res s).retcode, b)

/-- The fixed step order of the single-package pipeline. -/
def pipelineSteps : List Step :=
  [Step.prepare, Step.build, Step.sign, Step.upload]

/-- The PREPARE → BUILD → SIGN → UPLOAD chain over a fresh record, with the
activity outcomes and glob results supplied as oracles. -/
def runPipeline (package work_dir : String) (res : Step → StepResult)
    (globs : Step → List String) :
    Option (List Step × Option Int × BuildResult) :=
  pipelineSteps.foldlM (runStep work_dir res globs) ([], some 0, initialBuildResult package)

/-- `BackportPackage.run` (`workflows/backport_package.py` lines 46-97): run
the pipeline, then always flush the record to `work_dir` and return
`(retcode, log_file)`.  The result carries the invoked steps, the write
events of the flush, the final return code, the log path and the flushed
record. -/
def backportPackageRun (package work_dir : String) (res : Step → StepResult)
    (globs : Step → List String) :
    Option (List Step × List (String × String) × Option Int × String × BuildResult) :=
  match runPipeline package work_dir res globs with
  | none => none
  | some (inv, rc, b) =>
    let w := write_build_result b work_dir
    some (inv, w.1, rc, w.2.1, w.2.2)

/-- Observable outcome of one `BackportOMatic.run`: the final result map, the
log write events, the publish activity calls `(path, header)` that were
awaited, the (ignored) publish return codes, and the returned string. -/
structure BatchOutcome where
  results : List (String × BuildResult)
  writes : List (String × String)
  publishes : List (String × String)
  publishRets : List (Option Int)
  overall : String
deriving DecidableEq, Repr

/-- One iteration of the staging-seed loop of `BackportOMatic.run` (lines
77-89): build a record for one staging package `(name, version, state)`,
merge an empty outcome into it and flush it immediately. -/
def seedOne (work_dir build_log_dir : String) (sglobs : String → List String)
    (acc : List (String × BuildResult) × List (String × String)) :
    String × String × String → Option (List (String × BuildResult) × List (String × String))
  | (name, version, status) =>
    match update_build_result ⟨name, version, status, "", ""⟩ [] (some 0) "" work_dir
        (sglobs name) with
    | none => none
    | some b1 =>
      some (pyDictSet acc.1 name (write_build_result b1 build_log_dir).2.2,
            acc.2 ++ (write_build_result b1 build_log_dir).1)

/-- The staging-seed loop of `BackportOMatic.run` (lines 77-89). -/
def seedStaging (work_dir build_log_dir : String) (sglobs : String → List String)
    (staging : List (String × String × String)) :
    Option (List (String × BuildResult) × List (String × String)) :=
  staging.foldlM (seedOne work_dir build_log_dir sglobs) ([], [])

/-- One iteration of the outdated-package loop of `BackportOMatic.run`
(lines 100-142): skip the package when the exclude list is non-empty and
contains it; otherwise run the pipeline, flip the overall result to `Failed`
on a truthy final return code, flush the record to the build-log directory
and store it. -/
def processOne (work_dir build_log_dir : String) (exclude_list : List String)
    (res : String → Step → StepResult) (globs : String → Step → List String)
    (acc : List (String × BuildResult) × List (String × String) × String)
    (package : String) :
    Option (List (String × BuildResult) × List (String × String) × String) :=
  if exclude_list ≠ [] ∧ package ∈ exclude_list then some acc
  else
    match runPipeline package work_dir (res package) (globs package) with
    | none => none
    | some (_, rc, b) =>
      some (pyDictSet acc.1 package (write_build_result b build_log_dir).2.2,
            acc.2.1 ++ (write_build_result b build_log_dir).1,
            if pyTruthy rc then "Failed" else acc.2.2)

/-- The outdated-package loop of `BackportOMatic.run` (lines 100-142). -/
def runOutdated (work_dir build_log_dir : String) (exclude_list : List String)
    (res : String → Step → StepResult) (globs : String → Step → List String)
    (init : List (String × BuildResult) × List (String × String) × String)
    (packages : List String) :
    Option (List (String × BuildResult) × List (String × String) × String) :=
  packages.foldlM (processOne work_dir build_log_dir exclude_list res globs) init

/-- `BackportOMatic.run` (`workflows/backport_o_matic.py` lines 49-179):
seed the result set from the staging packages, abort when the
outdated-package query failed (`RuntimeError`, line 97), process every
non-excluded outdated package, then await the two `swift_publish` activities
— first the site directory with no header, then the build-log directory with
`content-type:text/plain` — without inspecting their return values, and
return `overall_result`.  `pubRes i` is the value returned by the `i`-th
publish activity; the code discards it. -/
def backportOMaticRun (exclude_list : List String)
    (work_dir www_dir build_log_dir : String)
    (staging : List (String × String × String)) (sglobs : String → List String)
    (outdatedRetcode : Option Int) (outdatedOutput : String)
    (res : String → Step → StepResult) (globs : String → Step → List String)
    (pubRes : Nat → Option Int) : Option BatchOutcome :=
  match seedStaging work_dir build_log_dir sglobs staging with
  | none => none
  | some (seedRes, seedWr) =>
    if pyTruthy outdatedRetcode then none
    else
      match runOutdated work_dir build_log_dir exclude_list res globs
          (seedRes, seedWr, "Success") (parsePackages outdatedOutput) with
      | none => none
      | some (results, writes, overall) =>
        some { results := results
               writes := writes
               publishes := [(www_dir, ""), (build_log_dir, "content-type:text/plain")]
               publishRets := [pubRes 0, pubRes 1]
               overall := overall }

/-- Concrete subprocess oracle: every command succeeds with empty output. -/
def execZero : List String → Option Int × String := fun _ => (some 0, "")

/-- Concrete subprocess oracle: every command fails with exit code 2. -/
def execFail2 : List String → Option Int × String := fun _ => (some 2, "upload failed\n")

/-- Concrete per-step oracle: every step succeeds. -/
def resZero : Step → StepResult := fun _ => ⟨["true"], some 0, "ok\n"⟩

/-- Concrete per-step oracle: every step reports exit code 1 (so the first
step invoked already fails). -/
def resFail1 : Step → StepResult :=
  fun _ => ⟨["cloud-archive-backport"], some 1, "E: boom\n"⟩

/-- Concrete per-step oracle where BUILD is the skip outcome of
`backport_package_build` on an empty `.dsc` glob. -/
def resSkipBuild : Step → StepResult := fun s =>
  match s with
  | Step.build => backport_package_build "nova" "caracal" "wd" [] execZero
  | _ => ⟨["step"], some 0, "ok\n"⟩

/-- Concrete glob oracle: no artifact directory ever matches. -/
def globsEmpty : Step → List String := fun _ => []

/-- Concrete per-package step oracle: every step of every package succeeds. -/
def resZeroP : String → Step → StepResult := fun _ _ => ⟨["true"], some 0, "ok\n"⟩

/-- Concrete per-package glob oracle: no artifact directory ever matches. -/
def globsEmptyP : String → Step → List String := fun _ _ => []

/-- Concrete staging-seed glob oracle: no artifact directory ever matches. -/
def sglobsEmpty : String → List String := fun _ => []

/-- Concrete publish-result oracle: the first publish activity returns exit
code 2, the second returns 0. -/
def pubFail2 : Nat → Option Int := fun n => if n = 0 then some 2 else some 0

/-- Concrete publish-result oracle: both publish activities succeed. -/
def pubZero : Nat → Option Int := fun _ => some 0

theorem splitFirst_of_leading (sep s : List Char) (h : sep <+: s) :
    splitFirst sep s = some ([], s.drop sep.length) := by
  cases s with
  | nil =>
    have hs : sep = [] := List.prefix_nil.mp h
    subst hs
    rfl
  | cons c cs =>
    simp [splitFirst, h]

theorem splitFirst_eq_none (sep : List Char) :
    ∀ s : List Char, (∀ k, ¬ sep <+: s.drop k) → splitFirst sep s = none := by
  intro s
  induction s with
  | nil =>
    intro h
    have h0 := h 0
    simp only [List.drop_nil] at h0
    have hs : sep ≠ [] := by
      intro e
      subst e
      exact h0 ⟨[], rfl⟩
    simp [splitFirst, hs]
  | cons c cs ih =>
    intro h
    have h0 : ¬ sep <+: (c :: cs) := by
      have := h 0
      simpa using this
    have htail : ∀ k, ¬ sep <+: cs.drop k := by
      intro k hk
      have := h (k + 1)
      simp only [List.drop_succ_cons] at this
      exact this hk
    simp only [splitFirst, if_neg h0, ih htail]

theorem occursB_false_no_occur (sub s : List Char) (h : occursB sub s = false) :
    ∀ k, ¬ sub <+: s.drop k := by
  intro k hk
  unfold occursB at h
  rw [List.any_eq_false] at h
  by_cases hks : k ≤ s.length
  · have hmem := h k (List.mem_range.mpr (by omega))
    exact hmem (decide_eq_true hk)
  · have hmem := h s.length (List.mem_range.mpr (by omega))
    have hnil : s.drop s.length = [] := List.drop_eq_nil_of_le (le_refl _)
    have hnil' : s.drop k = [] := List.drop_eq_nil_of_le (by omega)
    rw [hnil'] at hk
    rw [← hnil] at hk
    exact hmem (decide_eq_true hk)

theorem occursB_of_occur (sub s : List Char) (h : ∃ k, sub <+: s.drop k) :
    occursB sub s = true := by
  obtain ⟨k, hk⟩ := h
  unfold occursB
  rw [List.any_eq_true]
  by_cases hks : k ≤ s.length
  · exact ⟨k, List.mem_range.mpr (by omega), decide_eq_true hk⟩
  · refine ⟨s.length, List.mem_range.mpr (by omega), decide_eq_true ?_⟩
    rw [List.drop_eq_nil_of_le (le_refl _)]
    rw [List.drop_eq_nil_of_le (by omega : s.length ≤ k)] at hk
    exact hk

theorem occur_append_right (x y sub : List Char) (h : ∃ k, sub <+: y.drop k) :
    ∃ k, sub <+: (x ++ y).drop k := by
  obtain ⟨k, hk⟩ := h
  refine ⟨x.length + k, ?_⟩
  rw [← List.drop_drop, List.drop_left]
  exact hk

theorem pyReplace_id (sep repl : List Char) :
    ∀ s : List Char, (∀ k, ¬ sep <+: s.drop k) → pyReplace sep repl s = s := by
  intro s
  induction s with
  | nil => intro _; simp [pyReplace]
  | cons c cs ih =>
    intro h
    cases sep with
    | nil => simp [pyReplace]
    | cons a as =>
      have h0 : ¬ (a :: as) <+: (c :: cs) := by
        have := h 0
        simpa using this
      have htail : ∀ k, ¬ (a :: as) <+: cs.drop k := by
        intro k hk
        have := h (k + 1)
        simp only [List.drop_succ_cons] at this
        exact this hk
      simp only [pyReplace, if_neg h0, ih htail]

theorem splitOnChar_ne_nil (c : Char) : ∀ l : List Char, splitOnChar c l ≠ [] := by
  intro l
  induction l with
  | nil => simp [splitOnChar]
  | cons x xs ih =>
    simp only [splitOnChar]
    by_cases hx : x = c
    · simp [hx]
    · simp only [if_neg hx]
      cases hsp : splitOnChar c xs with
      | nil => exact absurd hsp ih
      | cons h t => simp

theorem splitOnChar_not_mem (c : Char) : ∀ l : List Char, c ∉ l → splitOnChar c l = [l] := by
  intro l
  induction l with
  | nil => intro _; rfl
  | cons x xs ih =>
    intro h
    have hx : ¬ x = c := fun e => h (by simp [e])
    have h' : c ∉ xs := fun m => h (by simp [m])
    simp only [splitOnChar, if_neg hx, ih h']

theorem splitOnChar_append (c : Char) (rest : List Char) :
    ∀ k : List Char, c ∉ k → splitOnChar c (k ++ c :: rest) = k :: splitOnChar c rest := by
  intro k
  induction k with
  | nil => intro _; simp [splitOnChar]
  | cons x xs ih =>
    intro h
    have hx : ¬ x = c := fun e => h (by simp [e])
    have h' : c ∉ xs := fun m => h (by simp [m])
    simp only [List.cons_append, splitOnChar, if_neg hx, List.append_eq, ih h']

theorem pySplitIndex1_of_leading (d sep : String) (hp : sep.data <+: d.data) :
    pySplitIndex1 d sep
      = some (String.mk (pySecondPiece sep.data (List.drop sep.data.length d.data))) := by
  unfold pySplitIndex1
  rw [splitFirst_of_leading _ _ hp]

theorem update_ok (b : BuildResult) (cmd : List String) (rc : Option Int)
    (out wd : String) (g : List String)
    (hg : b.version ≠ "" ∨ ∀ d ∈ g, (wd ++ "/" ++ b.package ++ "-").data <+: d.data) :
    ∃ b', update_build_result b cmd rc out wd g = some b' ∧
      b'.package = b.package ∧
      b'.status = (if pyTruthy rc then "failed" else b.status) := by
  have hdisc : ∃ v, discoverVersion b wd g = some v := by
    unfold discoverVersion
    by_cases hv : b.version = ""
    · have hg' : ∀ d ∈ g, (wd ++ "/" ++ b.package ++ "-").data <+: d.data := by
        cases hg with
        | inl h => exact absurd hv h
        | inr h => exact h
      cases g with
      | nil => exact ⟨b.version, by simp [hv]⟩
      | cons d t =>
        have hp := hg' d (by simp)
        simp only [hv, if_true]
        rw [pySplitIndex1_of_leading d _ hp]
        exact ⟨_, rfl⟩
    · exact ⟨b.version, by simp [hv]⟩
  obtain ⟨v, hv⟩ := hdisc
  refine ⟨{ package := b.package, version := v,
            status := if pyTruthy rc then "failed" else b.status,
            output := if b.output = "" then fmtBlock cmd rc out
                      else b.output ++ "\n" ++ fmtBlock cmd rc out,
            logfile := b.package ++ "-" ++ v ++ ".build" }, ?_, rfl, rfl⟩
  unfold update_build_result
  rw [hv]

theorem update_output (b : BuildResult) (cmd : List String) (rc : Option Int)
    (out wd : String) (g : List String) (b' : BuildResult)
    (h : update_build_result b cmd rc out wd g = some b') :
    b'.output = if b.output = "" then fmtBlock cmd rc out
                else b.output ++ "\n" ++ fmtBlock cmd rc out := by
  unfold update_build_result at h
  cases hd : discoverVersion b wd g with
  | none => rw [hd] at h; exact absurd h (by simp)
  | some v =>
    rw [hd] at h
    injection h with h'
    subst h'
    rfl

theorem update_logfile (b : BuildResult) (cmd : List String) (rc : Option Int)
    (out wd : String) (g : List String) (b' : BuildResult)
    (h : update_build_result b cmd rc out wd g = some b') :
    ∃ v, discoverVersion b wd g = some v ∧
      b'.logfile = b.package ++ "-" ++ v ++ ".build" := by
  unfold update_build_result at h
  cases hd : discoverVersion b wd g with
  | none => rw [hd] at h; exact absurd h (by simp)
  | some v =>
    rw [hd] at h
    injection h with h'
    subst h'
    exact ⟨v, rfl, rfl⟩

theorem runStep_skip (wd : String) (res : Step → StepResult) (globs : Step → List String)
    (acc : List Step × Option Int × BuildResult) (s : Step)
    (h : pyTruthy acc.2.1 = true) :
    runStep wd res globs acc s = some acc := by
  simp [runStep, h]

theorem runStep_go (wd : String) (res : Step → StepResult) (globs : Step → List String)
    (inv : List Step) (rc : Option Int) (b : BuildResult) (s : Step) (b' : BuildResult)
    (h : pyTruthy rc = false)
    (hu : update_build_result b (res s).cmd (res s).retcode (res s).output wd (globs s)
      = some b') :
    runStep wd res globs (inv, rc, b) s = some (inv ++ [s], (res s).retcode, b') := by
  simp [runStep, h, hu]

theorem foldlM_runStep_skip (wd : String) (res : Step → StepResult)
    (globs : Step → List String) :
    ∀ (l : List Step) (acc : List Step × Option Int × BuildResult),
      pyTruthy acc.2.1 = true →
      l.foldlM (runStep wd res globs) acc = some acc := by
  intro l
  induction l with
  | nil => intro acc _; rfl
  | cons a l ih =>
    intro acc h
    rw [List.foldlM_cons, runStep_skip wd res globs acc a h]
    simpa using ih acc h

theorem runStep_extends (wd : String) (res : Step → StepResult)
    (globs : Step → List String) (acc : List Step × Option Int × BuildResult) (s : Step)
    (acc' : List Step × Option Int × BuildResult)
    (h : runStep wd res globs acc s = some acc') :
    ∃ t, acc'.1 = acc.1 ++ t := by
  unfold runStep at h
  split at h
  · injection h with h'
    exact ⟨[], by rw [← h']; simp⟩
  · split at h
    · exact absurd h (by simp)
    · injection h with h'
      exact ⟨[s], by rw [← h']⟩

theorem foldlM_runStep_mem (wd : String) (res : Step → StepResult)
    (globs : Step → List String) :
    ∀ (l : List Step) (acc r : List Step × Option Int × BuildResult),
      l.foldlM (runStep wd res globs) acc = some r →
      ∀ s0, s0 ∈ acc.1 → s0 ∈ r.1 := by
  intro l
  induction l with
  | nil =>
    intro acc r h s0 hs
    have : acc = r := by simpa using h
    rw [← this]
    exact hs
  | cons a l ih =>
    intro acc r h s0 hs
    rw [List.foldlM_cons] at h
    cases hstep : runStep wd res globs acc a with
    | none => rw [hstep] at h; simp at h
    | some acc' =>
      rw [hstep] at h
      simp only [Option.bind_eq_bind, Option.some_bind] at h
      obtain ⟨t, ht⟩ := runStep_extends wd res globs acc a acc' hstep
      exact ih acc' r h s0 (by rw [ht]; exact List.mem_append_left _ hs)

theorem foldlM_runStep_some (wd package : String) (res : Step → StepResult)
    (globs : Step → List String)
    (hg : ∀ s d, d ∈ globs s → (wd ++ "/" ++ package ++ "-").data <+: d.data) :
    ∀ (l : List Step) (acc : List Step × Option Int × BuildResult),
      acc.2.2.package = package →
      ∃ r, l.foldlM (runStep wd res globs) acc = some r ∧ r.2.2.package = package := by
  intro l
  induction l with
  | nil => intro acc hp; exact ⟨acc, rfl, hp⟩
  | cons a l ih =>
    intro acc hp
    obtain ⟨inv, rc, b⟩ := acc
    simp only at hp
    by_cases ht : pyTruthy rc = true
    · obtain ⟨r, hr, hrp⟩ := ih (inv, rc, b) hp
      refine ⟨r, ?_, hrp⟩
      rw [List.foldlM_cons, runStep_skip wd res globs (inv, rc, b) a ht]
      simpa using hr
    · have hf : pyTruthy rc = false := by
        revert ht
        cases pyTruthy rc <;> simp
      have hga : ∀ d ∈ globs a, (wd ++ "/" ++ b.package ++ "-").data <+: d.data := by
        rw [hp]
        exact hg a
      obtain ⟨b', hb', hbp, _⟩ :=
        update_ok b (res a).cmd (res a).retcode (res a).output wd (globs a) (Or.inr hga)
      obtain ⟨r, hr, hrp⟩ := ih (inv ++ [a], (res a).retcode, b') (by simpa [hbp])
      refine ⟨r, ?_, hrp⟩
      rw [List.foldlM_cons, runStep_go wd res globs inv rc b a b' hf hb']
      simpa using hr

theorem fmtBlock_ne_empty (cmd : List String) (rc : Option Int) (out : String) :
    fmtBlock cmd rc out ≠ "" := by
  intro h
  have hd := congrArg String.data h
  simp only [fmtBlock, String.data_append] at hd
  simp at hd

theorem foldlM_runStep_step (wd : String) (res : Step → StepResult)
    (globs : Step → List String) (l : List Step) (inv : List Step) (rc : Option Int)
    (b b' : BuildResult) (s : Step)
    (hrc : pyTruthy rc = false)
    (hu : update_build_result b (res s).cmd (res s).retcode (res s).output wd (globs s)
      = some b') :
    (s :: l).foldlM (runStep wd res globs) (inv, rc, b)
      = l.foldlM (runStep wd res globs) (inv ++ [s], (res s).retcode, b') := by
  rw [List.foldlM_cons, runStep_go wd res globs inv rc b s b' hrc hu]
  simp

theorem pyDictSet_append {β : Type} (m : List (String × β)) (k : String) (v : β)
    (h : k ∉ m.map Prod.fst) : pyDictSet m k v = m ++ [(k, v)] := by
  simp [pyDictSet, h]

theorem seedOne_go (wd bld : String) (sglobs : String → List String)
    (acc : List (String × BuildResult) × List (String × String))
    (name version status : String) (b1 : BuildResult)
    (hu : update_build_result ⟨name, version, status, "", ""⟩ [] (some 0) "" wd (sglobs name)
      = some b1) :
    seedOne wd bld sglobs acc (name, version, status)
      = some (pyDictSet acc.1 name (write_build_result b1 bld).2.2,
              acc.2 ++ (write_build_result b1 bld).1) := by
  have e : seedOne wd bld sglobs acc (name, version, status)
      = match update_build_result ⟨name, version, status, "", ""⟩ [] (some 0) "" wd
          (sglobs name) with
        | none => none
        | some b1 => some (pyDictSet acc.1 name (write_build_result b1 bld).2.2,
                           acc.2 ++ (write_build_result b1 bld).1) := rfl
  rw [e, hu]

theorem processOne_excluded (wd bld : String) (exclude_list : List String)
    (res : String → Step → StepResult) (globs : String → Step → List String)
    (acc : List (String × BuildResult) × List (String × String) × String)
    (package : String) (h : exclude_list ≠ [] ∧ package ∈ exclude_list) :
    processOne wd bld exclude_list res globs acc package = some acc := by
  simp [processOne, h.1, h.2]

theorem processOne_run (wd bld : String) (exclude_list : List String)
    (res : String → Step → StepResult) (globs : String → Step → List String)
    (acc : List (String × BuildResult) × List (String × String) × String)
    (package : String) (inv : List Step) (rc : Option Int) (b : BuildResult)
    (hnx : ¬(exclude_list ≠ [] ∧ package ∈ exclude_list))
    (hp : runPipeline package wd (res package) (globs package) = some (inv, rc, b)) :
    processOne wd bld exclude_list res globs acc package
      = some (pyDictSet acc.1 package (write_build_result b bld).2.2,
              acc.2.1 ++ (write_build_result b bld).1,
              if pyTruthy rc then "Failed" else acc.2.2) := by
  unfold processOne
  rw [if_neg hnx, hp]

theorem no_occur_of_shape (w entry p : List Char) (hslash : '/' ∉ entry)
    (hnp : ¬ (w ++ '/' :: (p ++ ['-'])) <+: (w ++ '/' :: entry)) :
    ∀ k, ¬ (w ++ '/' :: (p ++ ['-'])) <+: (w ++ '/' :: entry).drop k := by
  intro k hk
  cases k with
  | zero =>
    rw [List.drop_zero] at hk
    exact hnp hk
  | succ j =>
    obtain ⟨t, ht⟩ := hk
    have hlen : j + 1 ≤ (w ++ '/' :: entry).length := by
      by_contra hlt
      have hnil : (w ++ '/' :: entry).drop (j + 1) = [] :=
        List.drop_eq_nil_of_le (by omega)
      rw [hnil] at ht
      have h2 := (List.append_eq_nil.mp ht).1
      simp at h2
    have htk : (w ++ '/' :: entry).take (j + 1)
        ++ ((w ++ '/' :: (p ++ ['-'])) ++ t) = w ++ '/' :: entry := by
      rw [ht]
      exact List.take_append_drop (j + 1) (w ++ '/' :: entry)
    have hTlen : ((w ++ '/' :: entry).take (j + 1)).length = j + 1 := by
      rw [List.length_take]
      omega
    have hrhs : (w ++ '/' :: entry).drop (w.length + 1) = entry := by
      rw [show w ++ '/' :: entry = (w ++ ['/']) ++ entry by simp]
      rw [List.drop_left' (by simp)]
    have hlhs : (w ++ '/' :: entry).drop (w.length + 1)
        = ((w ++ '/' :: entry).take (j + 1) ++ w).drop (w.length + 1)
          ++ '/' :: ((p ++ ['-']) ++ t) := by
      conv_lhs => rw [← htk]
      rw [show (w ++ '/' :: entry).take (j + 1) ++ ((w ++ '/' :: (p ++ ['-'])) ++ t)
          = ((w ++ '/' :: entry).take (j + 1) ++ w) ++ ('/' :: ((p ++ ['-']) ++ t)) by
        simp]
      rw [List.drop_append_eq_append_drop]
      rw [show w.length + 1 - ((w ++ '/' :: entry).take (j + 1) ++ w).length = 0 by
        rw [List.length_append, hTlen]
        omega]
      rw [List.drop_zero]
    have hmem : '/' ∈ entry := by
      rw [← hrhs, hlhs]
      exact List.mem_append_right _ (List.mem_cons_self _ _)
    exact hslash hmem

/-- C2 counterexample: `write_build_result` (flush) on a record whose
accumulated transcript is empty is not a no-op — on the record
`⟨"nova", "2.1", "current", output := "", "nova-2.1.build"⟩` it still
performs one write event (opening `logs/nova-2.1.build` in mode `w` creates
the file, with empty content) and returns the non-empty path, refuting the
claim that no file is written and empty is returned. -/
theorem c2_flush_empty_counterexample :
    write_build_result ⟨"nova", "2.1", "current", "", "nova-2.1.build"⟩ "logs"
        = ([("logs/nova-2.1.build", "")], "logs/nova-2.1.build",
           ⟨"nova", "2.1", "current", "", "nova-2.1.build"⟩)
      ∧ ([("logs/nova-2.1.build", ("" : String))] : List (String × String)) ≠ []
      ∧ ("logs/nova-2.1.build" : String) ≠ "" :=
  ⟨by decide, by decide, by decide⟩

/-- C2 (amended): for every record with empty transcript, flush still
performs exactly one filesystem write — it creates/truncates the file at
`{log_dir}/{logfile}` with empty content — and returns that path; the record
is returned with its (already empty) transcript cleared. -/
theorem c2_flush_empty_amended (package version status logfile log_dir : String) :
    write_build_result ⟨package, version, status, "", logfile⟩ log_dir
      = ([(joinPath log_dir logfile, "")], joinPath log_dir logfile,
         ⟨package, version, status, "", logfile⟩) :=
  rfl

/-- C3 counterexample: `update_build_result` (merge_step) with empty
`captured_output` still appends a formatted transcript block: merging
`cmd=["sbuild"], retcode=0, output=""` into a record with empty transcript
yields the non-empty transcript `"+ sbuild\n+ return code: 0\n"`, refuting
the claim that no transcript entry is appended for empty output. -/
theorem c3_empty_output_counterexample :
    update_build_result ⟨"nova", "1", "current", "", ""⟩ ["sbuild"] (some 0) "" "wd" []
        = some ⟨"nova", "1", "current", "+ sbuild\n+ return code: 0\n", "nova-1.build"⟩
      ∧ ("+ sbuild\n+ return code: 0\n" : String) ≠ "" :=
  ⟨by decide, by decide⟩

/-- C3 (amended): every successful `update_build_result` call appends a
formatted block to the transcript even when `captured_output` is the empty
string — the transcript strictly changes on every call. -/
theorem c3_empty_output_amended (b : BuildResult) (cmd : List String) (rc : Option Int)
    (work_dir : String) (g : List String) (b' : BuildResult)
    (h : update_build_result b cmd rc "" work_dir g = some b') :
    b'.output ≠ b.output := by
  have ho := update_output b cmd rc "" work_dir g b' h
  by_cases hb : b.output = ""
  · rw [if_pos hb] at ho
    rw [ho, hb]
    exact fmtBlock_ne_empty cmd rc ""
  · rw [if_neg hb] at ho
    intro he
    rw [ho] at he
    have hl := congrArg String.length he
    simp only [String.length_append] at hl
    have h1 : ("\n" : String).length = 1 := rfl
    rw [h1] at hl
    omega

/-- C3 (amended) witness: the amended theorem applied at the concrete call
`update_build_result ⟨"nova", "1", "current", "", ""⟩ ["prep"] (some 1) ""`,
whose result has transcript `"+ prep\n+ return code: 1\n"` ≠ `""`. -/
theorem c3_empty_output_amended_witness :
    (⟨"nova", "1", "failed", "+ prep\n+ return code: 1\n", "nova-1.build"⟩ :
        BuildResult).output
      ≠ (⟨"nova", "1", "current", "", ""⟩ : BuildResult).output :=
  c3_empty_output_amended ⟨"nova", "1", "current", "", ""⟩ ["prep"] (some 1) "wd" []
    ⟨"nova", "1", "failed", "+ prep\n+ return code: 1\n", "nova-1.build"⟩ (by decide)

/-- C4: the batch variant (`activities/backport_package.py`) builds exactly
the argv the spec states, with the package name once, as the final argument
after the optional `--proposed`; but the standalone archive-backport variant
(`activities/archive_backport.py`) emits the package name twice — once
before `--proposed` (line 63) and once appended after it (line 67) — so at
the failing input `("nova", "caracal", "~cloud0", "./wd", proposed=True)` the
package appears twice and not only as the final argument. -/
theorem c4_prepare_cmd_divergence :
    backport_package_prepare_cmd "nova" "caracal" "~cloud0" "./wd" true
        = ["cloud-archive-backport", "--suffix", "~cloud0", "--yes", "--release", "caracal",
           "--outdir", "./wd", "--proposed", "nova"]
      ∧ archive_backport_prepare_cmd "nova" "caracal" "~cloud0" "./wd" true
        = ["cloud-archive-backport", "--suffix", "~cloud0", "--yes", "--release", "caracal",
           "--outdir", "./wd", "nova", "--proposed", "nova"]
      ∧ (archive_backport_prepare_cmd "nova" "caracal" "~cloud0" "./wd" true).count "nova" = 2
      ∧ (backport_package_prepare_cmd "nova" "caracal" "~cloud0" "./wd" true).count "nova"
          = 1 :=
  ⟨by decide, by decide, by decide, by decide⟩

/-- C6 counterexample: in the archive-backport variant
(`activities/archive_backport.py`), the BUILD step with an empty `.dsc` glob
does not produce a skip outcome — it indexes the empty glob result
(`dsc_file[0]`) and raises `IndexError` (modelled `none`), refuting the
claim that both pipeline variants produce a skip outcome. -/
theorem c6_archive_build_counterexample :
    archive_backport_build "nova" "caracal" "./wd" [] execZero = none :=
  rfl

/-- C6 (amended): in the batch variant (`activities/backport_package.py`)
the BUILD step with no matching `.dsc` yields exit code 0 and a message
containing `does not exist. Skipping`, and SIGN still executes afterwards in
the pipeline; the archive-backport variant instead raises `IndexError` on an
empty glob. -/
theorem c6_build_skip_amended :
    (∀ (package os_series work_dir : String) (exec : List String → Option Int × String),
      (backport_package_build package os_series work_dir [] exec).retcode = some 0
        ∧ strContains (backport_package_build package os_series work_dir [] exec).output
            "does not exist. Skipping" = true)
    ∧ (∀ (package work_dir os_series bwd : String)
          (exec : List String → Option Int × String)
          (res : Step → StepResult) (globs : Step → List String),
        (∀ s d, d ∈ globs s → (work_dir ++ "/" ++ package ++ "-").data <+: d.data) →
        (res Step.prepare).retcode = some 0 →
        res Step.build = backport_package_build package os_series bwd [] exec →
        ∃ inv rc b, runPipeline package work_dir res globs = some (inv, rc, b)
          ∧ Step.sign ∈ inv)
    ∧ (∀ (package os_series work_dir : String) (exec : List String → Option Int × String),
        archive_backport_build package os_series work_dir [] exec = none) := by
  refine ⟨?_, ?_, ?_⟩
  · intro package os_series work_dir exec
    refine ⟨rfl, ?_⟩
    show occursB ("does not exist. Skipping").data
        (joinPath (joinPath work_dir (package ++ "*")) (package ++ "_*.dsc")
          ++ " does not exist. Skipping sbuild." ++ "\n").data = true
    apply occursB_of_occur
    rw [String.data_append, String.data_append, List.append_assoc]
    exact occur_append_right _ _ _ ⟨1, by decide⟩
  · intro package work_dir os_series bwd exec res globs hg hprep hskip
    have hbuild : (res Step.build).retcode = some 0 := by rw [hskip]; rfl
    obtain ⟨b1, hb1, hp1, _⟩ := update_ok (initialBuildResult package) (res Step.prepare).cmd
      (res Step.prepare).retcode (res Step.prepare).output work_dir (globs Step.prepare)
      (Or.inr (hg Step.prepare))
    obtain ⟨b2, hb2, hp2, _⟩ := update_ok b1 (res Step.build).cmd
      (res Step.build).retcode (res Step.build).output work_dir (globs Step.build)
      (Or.inr (by rw [show b1.package = package from hp1]; exact hg Step.build))
    obtain ⟨b3, hb3, hp3, _⟩ := update_ok b2 (res Step.sign).cmd
      (res Step.sign).retcode (res Step.sign).output work_dir (globs Step.sign)
      (Or.inr (by rw [show b2.package = package from hp2.trans hp1]; exact hg Step.sign))
    obtain ⟨r, hr, _⟩ := foldlM_runStep_some work_dir package res globs hg [Step.upload]
      ([Step.prepare, Step.build, Step.sign], (res Step.sign).retcode, b3)
      (by exact hp3.trans (hp2.trans hp1))
    obtain ⟨ri, rr, rb⟩ := r
    have hpipe : runPipeline package work_dir res globs = some (ri, rr, rb) := by
      rw [runPipeline, pipelineSteps]
      rw [foldlM_runStep_step work_dir res globs _ [] (some 0) (initialBuildResult package)
        b1 Step.prepare (by decide) hb1, hprep]
      simp only [List.nil_append]
      rw [foldlM_runStep_step work_dir res globs _ [Step.prepare] (some 0) b1 b2 Step.build
        (by decide) hb2, hbuild]
      simp only [List.cons_append, List.nil_append]
      rw [foldlM_runStep_step work_dir res globs _ [Step.prepare, Step.build] (some 0) b2 b3
        Step.sign (by decide) hb3]
      simp only [List.cons_append, List.nil_append]
      exact hr
    refine ⟨ri, rr, rb, hpipe, ?_⟩
    exact foldlM_runStep_mem work_dir res globs [Step.upload] _ _ hr Step.sign (by simp)
  · intro package os_series work_dir exec
    rfl

/-- C6 (amended) witness: the three parts of the amended theorem applied at
the concrete inputs `("nova", "caracal", "wd")` with the all-success executor
and a step oracle whose BUILD outcome is the empty-glob skip. -/
theorem c6_build_skip_amended_witness :
    ((backport_package_build "nova" "caracal" "wd" [] execZero).retcode = some 0
      ∧ strContains (backport_package_build "nova" "caracal" "wd" [] execZero).output
          "does not exist. Skipping" = true)
    ∧ (∃ inv rc b, runPipeline "nova" "wd" resSkipBuild globsEmpty = some (inv, rc, b)
        ∧ Step.sign ∈ inv)
    ∧ archive_backport_build "nova" "caracal" "wd" [] execZero = none :=
  ⟨c6_build_skip_amended.1 "nova" "caracal" "wd" execZero,
   c6_build_skip_amended.2.1 "nova" "wd" "caracal" "wd" execZero resSkipBuild globsEmpty
     (fun s d hd => absurd hd (List.not_mem_nil d)) rfl rfl,
   c6_build_skip_amended.2.2 "nova" "caracal" "wd" execZero⟩

/-- C8 counterexample: a record whose version is never resolved (empty glob)
gets log file name `nova-.build` — with a trailing hyphen and a `.build`
extension — not the bare package name `nova` the claim states; the flush
therefore writes `logs/nova-.build`. -/
theorem c8_logfile_counterexample :
    (update_build_result (initialBuildResult "nova") ["prep"] (some 0) "out" "wd" []).map
        (fun b => (write_build_result b "logs").2.1) = some "logs/nova-.build"
      ∧ (update_build_result (initialBuildResult "nova") ["prep"] (some 0) "out" "wd" []).map
          (fun b => b.logfile) = some "nova-.build"
      ∧ ("nova-.build" : String) ≠ "nova" :=
  ⟨by decide, by decide, by decide⟩

/-- C8 (amended): for a record with non-empty transcript, flush writes
exactly one file, whose name is `{package}-{version}.build` when the version
was discovered and `{package}-.build` (trailing hyphen before the `.build`
extension) when the version was never resolved. -/
theorem c8_logfile_amended :
    (∀ (package work_dir : String) (cmd : List String) (rc : Option Int)
        (out log_dir : String) (b' : BuildResult),
      update_build_result (initialBuildResult package) cmd rc out work_dir [] = some b' →
      b'.logfile = package ++ "-" ++ "" ++ ".build"
        ∧ (write_build_result b' log_dir).2.1
            = joinPath log_dir (package ++ "-" ++ "" ++ ".build")
        ∧ (write_build_result b' log_dir).1.length = 1)
    ∧ (∀ (package work_dir : String) (cmd : List String) (rc : Option Int)
        (out log_dir d version : String) (rest : List String) (b' : BuildResult),
      d.data = (work_dir ++ "/" ++ package ++ "-").data ++ version.data →
      occursB (work_dir ++ "/" ++ package ++ "-").data version.data = false →
      update_build_result (initialBuildResult package) cmd rc out work_dir (d :: rest)
        = some b' →
      b'.logfile = package ++ "-" ++ version ++ ".build"
        ∧ (write_build_result b' log_dir).2.1
            = joinPath log_dir (package ++ "-" ++ version ++ ".build")
        ∧ (write_build_result b' log_dir).1.length = 1) := by
  constructor
  · intro package work_dir cmd rc out log_dir b' h
    obtain ⟨v, hv, hlf⟩ := update_logfile _ _ _ _ _ _ _ h
    have hv0 : discoverVersion (initialBuildResult package) work_dir [] = some "" := rfl
    rw [hv0] at hv
    injection hv with hv'
    subst hv'
    refine ⟨hlf, ?_, rfl⟩
    show joinPath log_dir b'.logfile = _
    rw [hlf]
    rfl
  · intro package work_dir cmd rc out log_dir d version rest b' hd hocc h
    obtain ⟨v, hv, hlf⟩ := update_logfile _ _ _ _ _ _ _ h
    have hp : (work_dir ++ "/" ++ package ++ "-").data <+: d.data := ⟨version.data, hd.symm⟩
    have hv2 : discoverVersion (initialBuildResult package) work_dir (d :: rest)
        = pySplitIndex1 d (work_dir ++ "/" ++ package ++ "-") := rfl
    have hdrop : List.drop (work_dir ++ "/" ++ package ++ "-").data.length d.data
        = version.data := by
      rw [hd]
      exact List.drop_left _ _
    have hsp : pySecondPiece (work_dir ++ "/" ++ package ++ "-").data version.data
        = version.data := by
      unfold pySecondPiece
      rw [splitFirst_eq_none _ _ (occursB_false_no_occur _ _ hocc)]
    have hv3 : discoverVersion (initialBuildResult package) work_dir (d :: rest)
        = some version := by
      rw [hv2, pySplitIndex1_of_leading d _ hp, hdrop, hsp]
    rw [hv3] at hv
    injection hv with hv'
    subst hv'
    refine ⟨hlf, ?_, rfl⟩
    show joinPath log_dir b'.logfile = _
    rw [hlf]
    rfl

/-- C8 (amended) witness: both branches of the amended theorem at concrete
records — package `nova` with version never resolved, and package `glance`
with version `2.1` discovered from the directory `wd/glance-2.1`. -/
theorem c8_logfile_amended_witness :
    ((⟨"nova", "", "current", "+ prep\nout+ return code: 0\n", "nova-.build"⟩ :
          BuildResult).logfile = "nova" ++ "-" ++ "" ++ ".build"
      ∧ (write_build_result
            ⟨"nova", "", "current", "+ prep\nout+ return code: 0\n", "nova-.build"⟩
            "logs").2.1 = joinPath "logs" ("nova" ++ "-" ++ "" ++ ".build")
      ∧ (write_build_result
            ⟨"nova", "", "current", "+ prep\nout+ return code: 0\n", "nova-.build"⟩
            "logs").1.length = 1)
    ∧ ((⟨"glance", "2.1", "current", "+ prep\nout+ return code: 0\n",
            "glance-2.1.build"⟩ : BuildResult).logfile = "glance" ++ "-" ++ "2.1" ++ ".build"
      ∧ (write_build_result
            ⟨"glance", "2.1", "current", "+ prep\nout+ return code: 0\n",
              "glance-2.1.build"⟩ "logs").2.1
          = joinPath "logs" ("glance" ++ "-" ++ "2.1" ++ ".build")
      ∧ (write_build_result
            ⟨"glance", "2.1", "current", "+ prep\nout+ return code: 0\n",
              "glance-2.1.build"⟩ "logs").1.length = 1) :=
  ⟨c8_logfile_amended.1 "nova" "wd" ["prep"] (some 0) "out" "logs"
      ⟨"nova", "", "current", "+ prep\nout+ return code: 0\n", "nova-.build"⟩ (by decide),
   c8_logfile_amended.2 "glance" "wd" ["prep"] (some 0) "out" "logs" "wd/glance-2.1" "2.1"
      []
      ⟨"glance", "2.1", "current", "+ prep\nout+ return code: 0\n", "glance-2.1.build"⟩
      (by decide) (by decide) (by decide)⟩

/-- C9 counterexample: `os_auth_env` parses the line `OS_X=a=b\n` even
though it does not contain the token `export` (the claim says such lines are
skipped), and the stored value is `a` — the text between the first and
second `=` — not the whole remainder `a=b` (the claim says a value
containing `=` is kept whole). -/
theorem c9_credentials_counterexample :
    os_auth_env ["OS_X=a=b\n"] = some [("OS_X", "a")] ∧ ("a" : String) ≠ "a=b" := by
  constructor
  · have h1 : pyReplace exportSepChars [] ("OS_X=a=b\n").data = ("OS_X=a=b\n").data :=
      pyReplace_id _ _ _ (occursB_false_no_occur _ _ (by decide))
    have h2 : pyReplace ['"'] [] ("OS_X=a=b\n").data = ("OS_X=a=b\n").data :=
      pyReplace_id _ _ _ (occursB_false_no_occur _ _ (by decide))
    unfold os_auth_env
    simp only [List.foldlM_cons, List.foldlM_nil, h1, h2]
    decide
  · decide

/-- C9 (amended): `os_auth_env` processes every line, whether or not it
contains `export`; on a line of the shape `key=value1=value2` (with no
`export ` token, no double quote, no trailing whitespace, and no `=` inside
`key` or `value1`) it stores key `key` with value `value1` — the value is
truncated at the second `=`, not kept whole. -/
theorem c9_credentials_amended (key v1 v2 : String)
    (hexp : occursB exportSepChars (key ++ "=" ++ v1 ++ "=" ++ v2).data = false)
    (hq : occursB ['"'] (key ++ "=" ++ v1 ++ "=" ++ v2).data = false)
    (hws : pyRstrip (key ++ "=" ++ v1 ++ "=" ++ v2).data
      = (key ++ "=" ++ v1 ++ "=" ++ v2).data)
    (hk : '=' ∉ key.data) (hv : '=' ∉ v1.data) :
    os_auth_env [key ++ "=" ++ v1 ++ "=" ++ v2] = some [(key, v1)] := by
  have h1 := pyReplace_id exportSepChars [] _ (occursB_false_no_occur _ _ hexp)
  have h2 := pyReplace_id ['"'] [] _ (occursB_false_no_occur _ _ hq)
  have hdata : (key ++ "=" ++ v1 ++ "=" ++ v2).data
      = key.data ++ '=' :: (v1.data ++ '=' :: v2.data) := by
    simp only [String.data_append]
    simp
  have hsplit : splitOnChar '=' (key.data ++ '=' :: (v1.data ++ '=' :: v2.data))
      = key.data :: v1.data :: splitOnChar '=' v2.data := by
    rw [splitOnChar_append '=' _ key.data hk, splitOnChar_append '=' _ v1.data hv]
  have hk' : String.mk key.data = key := String.ext rfl
  have hv' : String.mk v1.data = v1 := String.ext rfl
  unfold os_auth_env
  simp only [List.foldlM_cons, List.foldlM_nil, h1, h2, hws]
  rw [hdata, hsplit]
  simp [pyDictSet, hk', hv']

/-- C9 (amended) witness: the amended theorem at the concrete credentials
line `OS_AUTH_URL=http://h=5000` (no `export` token, value containing `=`):
the parsed entry is `("OS_AUTH_URL", "http://h")`. -/
theorem c9_credentials_amended_witness :
    os_auth_env ["OS_AUTH_URL" ++ "=" ++ "http://h" ++ "=" ++ "5000"]
      = some [("OS_AUTH_URL", "http://h")] :=
  c9_credentials_amended "OS_AUTH_URL" "http://h" "5000" (by decide) (by decide)
    (by decide) (by decide) (by decide)

/-- C10: when the record's version is unset and the first glob match under
`work_dir` is a path `{work_dir}/{entry}` that does not begin with the
separator `{work_dir}/{package}-` (and, being a single glob component,
contains no further `/`), `update_build_result` raises `IndexError`
(returns `none`) instead of leaving the version unset — a single oddly
named directory makes merge_step fail rather than return. -/
theorem c10_version_discovery_raises (b : BuildResult) (cmd : List String)
    (rc : Option Int) (out work_dir d : String) (rest : List String) (entry : List Char)
    (hver : b.version = "")
    (hshape : d.data = work_dir.data ++ '/' :: entry)
    (hslash : '/' ∉ entry)
    (hnp : ¬ (work_dir ++ "/" ++ b.package ++ "-").data <+: d.data) :
    update_build_result b cmd rc out work_dir (d :: rest) = none := by
  have hsep : (work_dir ++ "/" ++ b.package ++ "-").data
      = work_dir.data ++ '/' :: (b.package.data ++ ['-']) := by
    simp only [String.data_append]
    simp
  have hnp2 : ¬ (work_dir.data ++ '/' :: (b.package.data ++ ['-']))
      <+: (work_dir.data ++ '/' :: entry) := by
    rw [← hsep, ← hshape]
    exact hnp
  have hno : ∀ k, ¬ (work_dir ++ "/" ++ b.package ++ "-").data <+: d.data.drop k := by
    intro k
    rw [hsep, hshape]
    exact no_occur_of_shape work_dir.data entry b.package.data hslash hnp2 k
  have hsf : splitFirst (work_dir ++ "/" ++ b.package ++ "-").data d.data = none :=
    splitFirst_eq_none _ _ hno
  have hdv : discoverVersion b work_dir (d :: rest) = none := by
    unfold discoverVersion
    rw [if_pos hver]
    show pySplitIndex1 d (work_dir ++ "/" ++ b.package ++ "-") = none
    unfold pySplitIndex1
    rw [hsf]
  unfold update_build_result
  rw [hdv]

/-- C10 witness: the theorem at the concrete record for package `nova` with
unset version, work dir `wd` and first glob match `wd/novax`, which starts
with `wd/nova` but not with `wd/nova-`; the merge raises (`none`). -/
theorem c10_version_discovery_raises_witness :
    ((⟨"nova", "", "current", "", ""⟩ : BuildResult).version = ""
      ∧ ("wd/novax" : String).data = ("wd" : String).data ++ '/' :: ("novax" : String).data
      ∧ '/' ∉ ("novax" : String).data
      ∧ ¬ ("wd" ++ "/" ++ "nova" ++ "-" : String).data <+: ("wd/novax" : String).data)
    ∧ update_build_result ⟨"nova", "", "current", "", ""⟩ ["cmd"] (some 0) "" "wd"
        ["wd/novax"] = none :=
  ⟨⟨rfl, by decide, by decide, by decide⟩,
   c10_version_discovery_raises ⟨"nova", "", "current", "", ""⟩ ["cmd"] (some 0) "" "wd"
     "wd/novax" [] ("novax").data rfl (by decide) (by decide) (by decide)⟩

/-- C1 counterexample: a batch run in which the first publish activity (the
site directory) returns exit code 2 (`pubFail2 0 = some 2`) still awaits the
second publish activity (the build-log directory) — both publish calls
appear in `publishes` — and the batch returns `"Success"`, not the failure
code, refuting the claim that the second publish is skipped and the batch
aborts surfacing the non-zero code. -/
theorem c1_publish_counterexample :
    (backportOMaticRun [] "wd" "www" "logs" [] sglobsEmpty (some 0) "" resZeroP globsEmptyP
        pubFail2).map (fun o => (o.publishes, o.publishRets, o.overall))
      = some ([("www", ""), ("logs", "content-type:text/plain")], [some 2, some 0],
          "Success") := by
  decide

/-- C1 (amended): failure propagation between the two swift commands exists
only *inside* one publish activity — when the `swift upload` command fails,
the `swift post` ACL command is skipped and the activity returns the failing
code — while the batch orchestrator itself awaits both publish activities
unconditionally and ignores their return values. -/
theorem c1_publish_amended :
    (∀ (path : String) (exec : List String → Option Int × String),
      pyTruthy (exec (swift_upload_cmd path "")).1 = true →
      swift_publish path "" exec
        = ([swift_upload_cmd path ""], (exec (swift_upload_cmd path "")).1))
    ∧ (∀ (exclude_list : List String) (work_dir www_dir build_log_dir : String)
        (staging : List (String × String × String)) (sglobs : String → List String)
        (orc : Option Int) (oout : String) (res : String → Step → StepResult)
        (globs : String → Step → List String) (pubRes : Nat → Option Int)
        (o : BatchOutcome),
      backportOMaticRun exclude_list work_dir www_dir build_log_dir staging sglobs orc oout
          res globs pubRes = some o →
      o.publishes = [(www_dir, ""), (build_log_dir, "content-type:text/plain")]
        ∧ o.publishRets = [pubRes 0, pubRes 1]) := by
  constructor
  · intro path exec hfail
    simp [swift_publish, runCmds, hfail]
  · intro exclude_list work_dir www_dir build_log_dir staging sglobs orc oout res globs
      pubRes o h
    unfold backportOMaticRun at h
    split at h
    · exact absurd h (by simp)
    · split at h
      · exact absurd h (by simp)
      · split at h
        · exact absurd h (by simp)
        · injection h with h'
          subst h'
          exact ⟨rfl, rfl⟩

/-- C1 (amended) witness: the first part at the concrete failing executor
(`execFail2`, exit 2 on every command) and path `www`; the second part at a
concrete empty batch run with both publish results `some 0`. -/
theorem c1_publish_amended_witness :
    swift_publish "www" "" execFail2
        = ([swift_upload_cmd "www" ""], (execFail2 (swift_upload_cmd "www" "")).1)
    ∧ ((⟨[], [], [("www", ""), ("logs", "content-type:text/plain")], [some 0, some 0],
          "Success"⟩ : BatchOutcome).publishes
        = [("www", ""), ("logs", "content-type:text/plain")]
      ∧ (⟨[], [], [("www", ""), ("logs", "content-type:text/plain")], [some 0, some 0],
          "Success"⟩ : BatchOutcome).publishRets = [pubZero 0, pubZero 1]) :=
  ⟨c1_publish_amended.1 "www" execFail2 (by decide),
   c1_publish_amended.2 [] "wd" "www" "logs" [] sglobsEmpty (some 0) "" resZeroP
     globsEmptyP pubZero
     ⟨[], [], [("www", ""), ("logs", "content-type:text/plain")], [some 0, some 0],
       "Success"⟩ (by decide)⟩

/-- C5: in the single-package pipeline (`BackportPackage.run`), when the
steps before position `k` report exit code 0 and the step at position `k`
reports a truthy (non-zero) exit code, the run invokes exactly the steps up
to and including `k` (so no argv of steps `k+1..n` can reach the
transcript), the record's status is `failed`, the final return code
surfaced to the caller is step `k`'s code, and the aggregator is still
finalized and flushed (exactly one log write). -/
theorem c5_failure_short_circuit
    (package work_dir : String) (res : Step → StepResult) (globs : Step → List String)
    (k : Nat) (hk : k < 4)
    (hg : ∀ s d, d ∈ globs s → (work_dir ++ "/" ++ package ++ "-").data <+: d.data)
    (hprev : ∀ j, j < k → (res (pipelineSteps.getD j Step.prepare)).retcode = some 0)
    (hfail : pyTruthy (res (pipelineSteps.getD k Step.prepare)).retcode = true) :
    ∃ writes path b,
      backportPackageRun package work_dir res globs
        = some (pipelineSteps.take (k + 1), writes,
            (res (pipelineSteps.getD k Step.prepare)).retcode, path, b)
      ∧ b.status = "failed" ∧ writes.length = 1 := by
  obtain ⟨b1, hb1, hp1, hs1⟩ := update_ok (initialBuildResult package) (res Step.prepare).cmd
    (res Step.prepare).retcode (res Step.prepare).output work_dir (globs Step.prepare)
    (Or.inr (hg Step.prepare))
  interval_cases k
  · have h0 : pyTruthy (res Step.prepare).retcode = true := hfail
    have hpipe : runPipeline package work_dir res globs
        = some ([Step.prepare], (res Step.prepare).retcode, b1) := by
      rw [runPipeline, pipelineSteps]
      rw [foldlM_runStep_step work_dir res globs _ [] (some 0) (initialBuildResult package)
        b1 Step.prepare (by decide) hb1]
      simp only [List.nil_append]
      exact foldlM_runStep_skip work_dir res globs _ _ h0
    refine ⟨(write_build_result b1 work_dir).1, (write_build_result b1 work_dir).2.1,
      (write_build_result b1 work_dir).2.2, ?_, ?_, ?_⟩
    · unfold backportPackageRun
      rw [hpipe]
      rfl
    · show b1.status = "failed"
      rw [hs1, if_pos h0]
    · rfl
  · have h0 : (res Step.prepare).retcode = some 0 := hprev 0 (by omega)
    have h1 : pyTruthy (res Step.build).retcode = true := hfail
    obtain ⟨b2, hb2, hp2, hs2⟩ := update_ok b1 (res Step.build).cmd
      (res Step.build).retcode (res Step.build).output work_dir (globs Step.build)
      (Or.inr (by rw [show b1.package = package from hp1]; exact hg Step.build))
    have hpipe : runPipeline package work_dir res globs
        = some ([Step.prepare, Step.build], (res Step.build).retcode, b2) := by
      rw [runPipeline, pipelineSteps]
      rw [foldlM_runStep_step work_dir res globs _ [] (some 0) (initialBuildResult package)
        b1 Step.prepare (by decide) hb1, h0]
      simp only [List.nil_append]
      rw [foldlM_runStep_step work_dir res globs _ [Step.prepare] (some 0) b1 b2 Step.build
        (by decide) hb2]
      simp only [List.cons_append, List.nil_append]
      exact foldlM_runStep_skip work_dir res globs _ _ h1
    refine ⟨(write_build_result b2 work_dir).1, (write_build_result b2 work_dir).2.1,
      (write_build_result b2 work_dir).2.2, ?_, ?_, ?_⟩
    · unfold backportPackageRun
      rw [hpipe]
      rfl
    · show b2.status = "failed"
      rw [hs2, if_pos h1]
    · rfl
  · have h0 : (res Step.prepare).retcode = some 0 := hprev 0 (by omega)
    have h1 : (res Step.build).retcode = some 0 := hprev 1 (by omega)
    have h2 : pyTruthy (res Step.sign).retcode = true := hfail
    obtain ⟨b2, hb2, hp2, hs2⟩ := update_ok b1 (res Step.build).cmd
      (res Step.build).retcode (res Step.build).output work_dir (globs Step.build)
      (Or.inr (by rw [show b1.package = package from hp1]; exact hg Step.build))
    obtain ⟨b3, hb3, hp3, hs3⟩ := update_ok b2 (res Step.sign).cmd
      (res Step.sign).retcode (res Step.sign).output work_dir (globs Step.sign)
      (Or.inr (by rw [show b2.package = package from hp2.trans hp1]; exact hg Step.sign))
    have hpipe : runPipeline package work_dir res globs
        = some ([Step.prepare, Step.build, Step.sign], (res Step.sign).retcode, b3) := by
      rw [runPipeline, pipelineSteps]
      rw [foldlM_runStep_step work_dir res globs _ [] (some 0) (initialBuildResult package)
        b1 Step.prepare (by decide) hb1, h0]
      simp only [List.nil_append]
      rw [foldlM_runStep_step work_dir res globs _ [Step.prepare] (some 0) b1 b2 Step.build
        (by decide) hb2, h1]
      simp only [List.cons_append, List.nil_append]
      rw [foldlM_runStep_step work_dir res globs _ [Step.prepare, Step.build] (some 0) b2 b3
        Step.sign (by decide) hb3]
      simp only [List.cons_append, List.nil_append]
      exact foldlM_runStep_skip work_dir res globs _ _ h2
    refine ⟨(write_build_result b3 work_dir).1, (write_build_result b3 work_dir).2.1,
      (write_build_result b3 work_dir).2.2, ?_, ?_, ?_⟩
    · unfold backportPackageRun
      rw [hpipe]
      rfl
    · show b3.status = "failed"
      rw [hs3, if_pos h2]
    · rfl
  · have h0 : (res Step.prepare).retcode = some 0 := hprev 0 (by omega)
    have h1 : (res Step.build).retcode = some 0 := hprev 1 (by omega)
    have h2 : (res Step.sign).retcode = some 0 := hprev 2 (by omega)
    have h3 : pyTruthy (res Step.upload).retcode = true := hfail
    obtain ⟨b2, hb2, hp2, hs2⟩ := update_ok b1 (res Step.build).cmd
      (res Step.build).retcode (res Step.build).output work_dir (globs Step.build)
      (Or.inr (by rw [show b1.package = package from hp1]; exact hg Step.build))
    obtain ⟨b3, hb3, hp3, hs3⟩ := update_ok b2 (res Step.sign).cmd
      (res Step.sign).retcode (res Step.sign).output work_dir (globs Step.sign)
      (Or.inr (by rw [show b2.package = package from hp2.trans hp1]; exact hg Step.sign))
    obtain ⟨b4, hb4, hp4, hs4⟩ := update_ok b3 (res Step.upload).cmd
      (res Step.upload).retcode (res Step.upload).output work_dir (globs Step.upload)
      (Or.inr (by rw [show b3.package = package from hp3.trans (hp2.trans hp1)]
                  exact hg Step.upload))
    have hpipe : runPipeline package work_dir res globs
        = some ([Step.prepare, Step.build, Step.sign, Step.upload],
            (res Step.upload).retcode, b4) := by
      rw [runPipeline, pipelineSteps]
      rw [foldlM_runStep_step work_dir res globs _ [] (some 0) (initialBuildResult package)
        b1 Step.prepare (by decide) hb1, h0]
      simp only [List.nil_append]
      rw [foldlM_runStep_step work_dir res globs _ [Step.prepare] (some 0) b1 b2 Step.build
        (by decide) hb2, h1]
      simp only [List.cons_append, List.nil_append]
      rw [foldlM_runStep_step work_dir res globs _ [Step.prepare, Step.build] (some 0) b2 b3
        Step.sign (by decide) hb3, h2]
      simp only [List.cons_append, List.nil_append]
      rw [foldlM_runStep_step work_dir res globs _ [Step.prepare, Step.build, Step.sign]
        (some 0) b3 b4 Step.upload (by decide) hb4]
      simp only [List.cons_append, List.nil_append]
      rfl
    refine ⟨(write_build_result b4 work_dir).1, (write_build_result b4 work_dir).2.1,
      (write_build_result b4 work_dir).2.2, ?_, ?_, ?_⟩
    · unfold backportPackageRun
      rw [hpipe]
      rfl
    · show b4.status = "failed"
      rw [hs4, if_pos h3]
    · rfl

/-- C5 witness: the theorem applied at `k = 0` with the concrete oracle
`resFail1` (every step reports exit 1) and empty globs: only PREPARE is
invoked, the status is `failed`, the surfaced code is `some 1`, and exactly
one log write happens. -/
theorem c5_failure_short_circuit_witness :
    ((∀ s d, d ∈ globsEmpty s → (("wd" ++ "/" ++ "nova" ++ "-" : String)).data <+: d.data)
      ∧ (∀ j, j < 0 → (resFail1 (pipelineSteps.getD j Step.prepare)).retcode = some 0)
      ∧ pyTruthy (resFail1 (pipelineSteps.getD 0 Step.prepare)).retcode = true)
    ∧ (∃ writes path b,
        backportPackageRun "nova" "wd" resFail1 globsEmpty
          = some (pipelineSteps.take (0 + 1), writes,
              (resFail1 (pipelineSteps.getD 0 Step.prepare)).retcode, path, b)
          ∧ b.status = "failed" ∧ writes.length = 1) :=
  ⟨⟨fun _ d hd => absurd hd (List.not_mem_nil d), fun _ hj => absurd hj (by omega),
    by decide⟩,
   c5_failure_short_circuit "nova" "wd" resFail1 globsEmpty 0 (by omega)
     (fun _ d hd => absurd hd (List.not_mem_nil d)) (fun _ hj => absurd hj (by omega))
     (by decide)⟩

/-- C7: a batch run seeded with 3 distinct `current` staging packages (with
known versions) and given 2 outdated packages of which exactly one is in the
(non-empty) exclude list produces a result set with exactly 4 entries — the
3 seeded packages followed by the 1 processed package — and `overall_result`
is `Failed` iff the processed package's final exit code is truthy; the
excluded package is skipped but the batch is never terminated early. -/
theorem c7_batch_aggregation
    (n1 v1 s1 n2 v2 s2 n3 v3 s3 p4 p5 : String) (exclude_list : List String)
    (work_dir www_dir build_log_dir outOutput : String)
    (sglobs : String → List String)
    (res : String → Step → StepResult) (globs : String → Step → List String)
    (pubRes : Nat → Option Int)
    (hv1 : v1 ≠ "") (hv2 : v2 ≠ "") (hv3 : v3 ≠ "")
    (h21 : n2 ≠ n1) (h31 : n3 ≠ n1) (h32 : n3 ≠ n2)
    (hp41 : p4 ≠ n1) (hp42 : p4 ≠ n2) (hp43 : p4 ≠ n3)
    (hout : parsePackages outOutput = [p4, p5])
    (hx4 : p4 ∉ exclude_list) (hx5 : p5 ∈ exclude_list)
    (hg4 : ∀ s d, d ∈ globs p4 s → (work_dir ++ "/" ++ p4 ++ "-").data <+: d.data) :
    ∃ inv rc b o,
      runPipeline p4 work_dir (res p4) (globs p4) = some (inv, rc, b)
      ∧ backportOMaticRun exclude_list work_dir www_dir build_log_dir
          [(n1, v1, s1), (n2, v2, s2), (n3, v3, s3)] sglobs (some 0) outOutput res globs
          pubRes = some o
      ∧ o.results.map Prod.fst = [n1, n2, n3, p4]
      ∧ o.results.length = 4
      ∧ (o.overall = "Failed" ↔ pyTruthy rc = true) := by
  obtain ⟨c1, hc1, _, _⟩ := update_ok ⟨n1, v1, s1, "", ""⟩ [] (some 0) "" work_dir
    (sglobs n1) (Or.inl hv1)
  obtain ⟨c2, hc2, _, _⟩ := update_ok ⟨n2, v2, s2, "", ""⟩ [] (some 0) "" work_dir
    (sglobs n2) (Or.inl hv2)
  obtain ⟨c3, hc3, _, _⟩ := update_ok ⟨n3, v3, s3, "", ""⟩ [] (some 0) "" work_dir
    (sglobs n3) (Or.inl hv3)
  obtain ⟨r4, hr4', hrp4⟩ := foldlM_runStep_some work_dir p4 (res p4) (globs p4) hg4
    pipelineSteps ([], some 0, initialBuildResult p4) rfl
  obtain ⟨inv4, rc4, b4⟩ := r4
  have hr4 : runPipeline p4 work_dir (res p4) (globs p4) = some (inv4, rc4, b4) := hr4'
  have hne : exclude_list ≠ [] := List.ne_nil_of_mem hx5
  have htr0 : pyTruthy (some 0) = false := rfl
  refine ⟨inv4, rc4, b4,
    ⟨[(n1, (write_build_result c1 build_log_dir).2.2),
      (n2, (write_build_result c2 build_log_dir).2.2),
      (n3, (write_build_result c3 build_log_dir).2.2),
      (p4, (write_build_result b4 build_log_dir).2.2)],
     (write_build_result c1 build_log_dir).1 ++ (write_build_result c2 build_log_dir).1
       ++ (write_build_result c3 build_log_dir).1 ++ (write_build_result b4 build_log_dir).1,
     [(www_dir, ""), (build_log_dir, "content-type:text/plain")],
     [pubRes 0, pubRes 1],
     if pyTruthy rc4 = true then "Failed" else "Success"⟩,
    hr4, ?main, ?keys, ?len, ?ovr⟩
  case main =>
    unfold backportOMaticRun seedStaging runOutdated
    simp only [List.foldlM_cons, List.foldlM_nil, seedOne, processOne, hc1, hc2, hc3,
      hout, hr4, pyDictSet, List.map_nil, List.map_cons, List.map_append,
      List.nil_append, List.cons_append, List.append_nil, List.not_mem_nil,
      List.mem_cons, List.mem_singleton, or_false, false_or, h21, h31, h32, hp41, hp42,
      hp43, hx4, hne, hx5, ne_eq, if_false, if_true, Option.bind_eq_bind,
      Option.some_bind, htr0, Bool.false_eq_true, and_true, true_and, and_false,
      false_and, not_false_eq_true, ite_false, ite_true]
  case keys => simp
  case len => simp
  case ovr =>
    by_cases h : pyTruthy rc4 = true
    · simp [h]
    · simp [h, (by decide : ("Success" : String) ≠ "Failed")]

/-- C7 witness: the theorem at the concrete batch — staging packages `a`,
`b`, `c` (version `1`, state `current`), outdated output `"d e"`, exclude
list `["e"]`, all steps succeeding — yielding exactly the four entries
`a, b, c, d`. -/
theorem c7_batch_aggregation_witness :
    (parsePackages "d e" = ["d", "e"]
      ∧ ("d" : String) ∉ (["e"] : List String)
      ∧ ("e" : String) ∈ (["e"] : List String))
    ∧ (∃ inv rc b o,
        runPipeline "d" "wd" (resZeroP "d") (globsEmptyP "d") = some (inv, rc, b)
        ∧ backportOMaticRun ["e"] "wd" "www" "logs"
            [("a", "1", "current"), ("b", "1", "current"), ("c", "1", "current")]
            sglobsEmpty (some 0) "d e" resZeroP globsEmptyP pubZero = some o
        ∧ o.results.map Prod.fst = ["a", "b", "c", "d"]
        ∧ o.results.length = 4
        ∧ (o.overall = "Failed" ↔ pyTruthy rc = true)) :=
  ⟨⟨by decide, by decide, by decide⟩,
   c7_batch_aggregation "a" "1" "current" "b" "1" "current" "c" "1" "current" "d" "e"
     ["e"] "wd" "www" "logs" "d e" sglobsEmpty resZeroP globsEmptyP pubZero
     (by decide) (by decide) (by decide) (by decide) (by decide) (by decide)
     (by decide) (by decide) (by decide) (by decide) (by decide) (by decide)
     (fun _ d hd => absurd hd (List.not_mem_nil d))⟩
